import Mathlib

/-!
Verification of the Kyma CLI installation package: the configuration
validator and the installation-convergence orchestrator described in the
repository's specification, checked against the behaviors pinned by
src/pkg/installation/installation_test.go.

The implementation file of the installation package is not present in the
repository snapshot (only its test file is), so the definitions below are
modelled from the specification, with every detail that the test file
asserts (exact error-message strings, the set of accepted Source values,
the fixed cluster identifiers) taken from the test file, which is the
repository's authority where it speaks.
-/

/-- Modelled from the spec: the immutable per-invocation configuration
record (spec section 3), mirroring the Options literal built in
src/pkg/installation/installation_test.go.  Fields `NonInteractive`,
`Timeout`, `Password`, `OverrideConfigs` and `ComponentsConfig` are
passed through untouched and never branched on by the core logic. -/
structure Options where
  NoWait : Bool
  NonInteractive : Bool
  Timeout : Nat
  Domain : String
  TLSCert : String
  TLSKey : String
  Password : String
  OverrideConfigs : List String
  ComponentsConfig : String
  IsLocal : Bool
  Source : String
  CustomImage : String
  LocalSrcPath : String
deriving Repr, DecidableEq

/-- Modelled from the spec: the four configuration-validation failures of
spec section 4.1 / section 7 (the implementation's validateConfigurations
is missing from the snapshot). -/
inductive ConfigError where
  | PartialTLSConfig
  | MissingLocalSources
  | MissingCustomImage
  | UnknownSource
deriving Repr, DecidableEq

/-- Error message attached to each validation failure.  The strings for
PartialTLSConfig and MissingCustomImage are pinned verbatim by the
require.EqualError assertions in TestValidateConfigurations
(src/pkg/installation/installation_test.go lines 141 and 173); the other
two are not asserted by any test and are paraphrased from the spec. -/
def ConfigError.message : ConfigError → String
  | .PartialTLSConfig => "You specified one of the --domain, --tlsKey, or --tlsCert without specifying the others. They must be specified together"
  | .MissingLocalSources => "No installation/resources directory exists under the local source path"
  | .MissingCustomImage => "You must specify --custom-image to install Kyma from local sources to a remote cluster."
  | .UnknownSource => "Unknown installation source"

/-- Number of the fields Domain, TLSCert, TLSKey that are non-empty. -/
def tlsTriple (o : Options) : Nat :=
  (if o.Domain = "" then 0 else 1) +
  (if o.TLSCert = "" then 0 else 1) +
  (if o.TLSKey = "" then 0 else 1)

/-- Splits a character list at every occurrence of the separator; the
groups never contain the separator and empty groups mark leading,
trailing or doubled separators. -/
def splitChars (sep : Char) : List Char → List (List Char)
  | [] => [[]]
  | c :: cs =>
    let r := splitChars sep cs
    if c = sep then [] :: r
    else (c :: r.headD []) :: r.tail

/-- Modelled from the spec: the short commit-id source pattern (lowercase
hex of fixed short length; the test's accepted example is "34edf09a",
eight characters). -/
def isCommitID (s : String) : Bool :=
  s.toList.length == 8 && s.toList.all (fun c => c.isDigit || ('a' ≤ c && c ≤ 'f'))

/-- Release-version source pattern (three dot-separated digit groups).
The spec's five-way Source classification omits this variant, but
TestValidateConfigurations and TestInstallKyma both validate
Source "1.11.0" successfully, so the repository's validator accepts it;
the pattern is modelled from those tests. -/
def isSemVer (s : String) : Bool :=
  match splitChars '.' s.toList with
  | [a, b, c] =>
    !a.isEmpty && !b.isEmpty && !c.isEmpty &&
    a.all Char.isDigit && b.all Char.isDigit && c.all Char.isDigit
  | _ => false

/-- Modelled from the spec: the container image reference pattern, the
registry/name:tag shape (the test's accepted example is
"test-registry/test-image:1.0.0"). -/
def isImageReference (s : String) : Bool :=
  match splitChars '/' s.toList with
  | [reg, rest] =>
    match splitChars ':' rest with
    | [nm, tag] => !reg.isEmpty && !nm.isEmpty && !tag.isEmpty
    | _ => false
  | _ => false

/-- Classification of a non-local Source value: the variants the
validator accepts (spec section 4.1 rule 3, plus the release-version
pattern required by the tests). -/
def knownSource (s : String) : Bool :=
  s == "latest" || s == "latest-published" || isCommitID s || isSemVer s || isImageReference s

/-- Modelled from the spec: validateConfigurations (spec section 4.1; the
implementation is missing from the snapshot).  Rules are applied in
order, first failing rule wins: partial TLS triple, then the local-source
rules, then the source-pattern classification.  The filesystem existence
check is abstracted as the `dirExists` argument; the validator consults
it only for LocalSrcPath/installation/resources in the local case. -/
def validateConfigurations (o : Options) (dirExists : String → Bool) : Except ConfigError Unit :=
  if 1 ≤ tlsTriple o ∧ tlsTriple o < 3 then
    .error .PartialTLSConfig
  else if o.Source = "local" then
    if dirExists (o.LocalSrcPath ++ "/installation/resources") = false then
      .error .MissingLocalSources
    else if o.IsLocal = false ∧ o.CustomImage = "" then
      .error .MissingCustomImage
    else
      .ok ()
  else if knownSource o.Source then
    .ok ()
  else
    .error .UnknownSource

/-- Modelled from the spec: the externally reported installation
lifecycle state (spec section 3).  `unset` models the empty/unset state
that the orchestrator treats like NoInstallation (the test returns an
empty InstallationState struct for it). -/
inductive InstallationState where
  | noInstallation
  | unset
  | inProgress
  | installed
  | errored (msg : String)
deriving Repr, DecidableEq

/-- Modelled from the spec: the orchestrator's typed failures (spec
sections 4.2 and 7).  `PollTimeout` is the exhaustion of the bounded
state-poll budget, an artifact of modelling the bounded loop with fuel. -/
inductive OrchError where
  | QueryFailed (msg : String)
  | TriggerFailed (msg : String)
  | PodWaitTimeout
  | InstallationFailed (msg : String)
  | UnexpectedStateRegression
  | ResultAssemblyFailed
  | PollTimeout
deriving Repr, DecidableEq

/-- Modelled from the spec: the populated installation result — the
console entry URL plus administrator credentials (spec section 3). -/
structure InstallationResult where
  host : String
  adminEmail : String
  adminPassword : String
deriving Repr, DecidableEq

/-- Observable side effects of one orchestrator invocation: how many
trigger calls, pod-wait calls and result-assembly reads it performed. -/
structure OrchLog where
  triggers : Nat
  podWaits : Nat
  assemblies : Nat
deriving Repr, DecidableEq

/-- Modelled from the spec: the two external capabilities of spec
section 6, as one environment record.  `checkState n` is the outcome of
the n-th installation-state query of the invocation (the state is
re-queried fresh at every decision point); `Except.error` is a failed
query.  Secrets and networking resources are looked up by namespace and
name; a secret is a partial map from field name to value, a networking
resource a list of hostnames. -/
structure ClusterEnv where
  checkState : Nat → Except String InstallationState
  triggerInstallation : Except String Unit
  waitPodStatus : String → String → String → String → Except String Unit
  getSecretData : String → String → Option (String → Option String)
  getVirtualServiceHosts : String → String → Option (List String)

/-- Modelled from the spec: result assembly (spec sections 4.2 and 6) —
read the entry URL as the first hostname of the networking resource
console-web in namespace kyma-system and the administrator credentials
from the email and password fields of the secret admin-user in namespace
kyma-system; any missing piece is a ResultAssemblyFailed. -/
def assembleResult (env : ClusterEnv) : Except OrchError InstallationResult :=
  match env.getVirtualServiceHosts "kyma-system" "console-web", env.getSecretData "kyma-system" "admin-user" with
  | some (h :: _), some data =>
    match data "email", data "password" with
    | some em, some pw => .ok ⟨h, em, pw⟩
    | _, _ => .error .ResultAssemblyFailed
  | _, _ => .error .ResultAssemblyFailed

/-- Modelled from the spec: the post-trigger poll of the installation
state (spec section 4.2 wait-loop step 2), bounded by fuel.  `i` indexes
the next state query.  Installed confirms completion; Errored surfaces
as InstallationFailed; a regression to NoInstallation (or unset) is an
UnexpectedStateRegression; InProgress polls again. -/
def pollUntilInstalled (env : ClusterEnv) (i : Nat) : Nat → Except OrchError Unit
  | 0 => .error .PollTimeout
  | fuel + 1 =>
    match env.checkState i with
    | .error e => .error (.QueryFailed e)
    | .ok .installed => .ok ()
    | .ok (.errored msg) => .error (.InstallationFailed msg)
    | .ok .noInstallation => .error .UnexpectedStateRegression
    | .ok .unset => .error .UnexpectedStateRegression
    | .ok .inProgress => pollUntilInstalled env (i + 1) fuel

/-- Modelled from the spec: the wait loop plus result assembly (spec
section 4.2) — block until the installer pod kyma-installer with label
name=kyma-installer reaches the Running phase (timeout expiry surfaces
as PodWaitTimeout), poll the state until Installed, then assemble the
result.  `triggers` is the number of trigger calls already performed,
threaded into the invocation's log. -/
def waitAndFinish (env : ClusterEnv) (triggers fuel : Nat) :
    Except OrchError (Option InstallationResult) × OrchLog :=
  match env.waitPodStatus "kyma-installer" "name" "kyma-installer" "Running" with
  | .error _ => (.error .PodWaitTimeout, ⟨triggers, 1, 0⟩)
  | .ok _ =>
    match pollUntilInstalled env 1 fuel with
    | .error e => (.error e, ⟨triggers, 1, 0⟩)
    | .ok _ =>
      match assembleResult env with
      | .ok r => (.ok (some r), ⟨triggers, 1, 1⟩)
      | .error e => (.error e, ⟨triggers, 1, 1⟩)

/-- Modelled from the spec: InstallKyma, the orchestrator run (spec
section 4.2; the implementation is missing from the snapshot).  One
initial state query decides the action: a failed query (or an Errored
state) propagates immediately as QueryFailed with nothing else done;
Installed goes straight to result assembly; InProgress triggers nothing
and either returns the empty result (NoWait) or enters the wait loop;
NoInstallation or an unset state triggers the installation exactly once
and then does the same NoWait split.  The empty result is `none`, a
populated one `some`. -/
def InstallKyma (o : Options) (env : ClusterEnv) (fuel : Nat) :
    Except OrchError (Option InstallationResult) × OrchLog :=
  match env.checkState 0 with
  | .error e => (.error (.QueryFailed e), ⟨0, 0, 0⟩)
  | .ok (.errored msg) => (.error (.QueryFailed msg), ⟨0, 0, 0⟩)
  | .ok .installed =>
    match assembleResult env with
    | .ok r => (.ok (some r), ⟨0, 0, 1⟩)
    | .error e => (.error e, ⟨0, 0, 1⟩)
  | .ok .inProgress =>
    if o.NoWait then (.ok none, ⟨0, 0, 0⟩)
    else waitAndFinish env 0 fuel
  | .ok .noInstallation | .ok .unset =>
    match env.triggerInstallation with
    | .error e => (.error (.TriggerFailed e), ⟨1, 0, 0⟩)
    | .ok _ =>
      if o.NoWait then (.ok none, ⟨1, 0, 0⟩)
      else waitAndFinish env 1 fuel

/-- Secret data of the admin-user secret as populated by the fake
cluster in TestInstallKyma. -/
def testSecretData : String → Option String :=
  fun f => if f = "email" then some "admin@fake.com" else if f = "password" then some "1234-super-secure" else none

/-- Cluster environment mirroring the fakes of TestInstallKyma: the
installer pod wait succeeds, triggering succeeds, the admin-user secret
in kyma-system holds the fake credentials, and the console-web virtual
service in kyma-system exposes the single host fake-console-url.  The
state-query outcomes are the parameter. -/
def baseEnv (states : Nat → Except String InstallationState) : ClusterEnv :=
  ⟨states, .ok (), fun _ _ _ _ => .ok (),
   fun ns n => if ns = "kyma-system" ∧ n = "admin-user" then some testSecretData else none,
   fun ns n => if ns = "kyma-system" ∧ n = "console-web" then some ["fake-console-url"] else none⟩

/-- The Options literal of TestInstallKyma (Timeout in seconds). -/
def testOptions : Options :=
  ⟨false, true, 600, "irrelevant", "fake-cert", "fake-key", "fake-password", [], "", false, "1.11.0", "", ""⟩

/-- Environment whose first state query reports NoInstallation and every
later one Installed, as in the final TestInstallKyma scenario. -/
def envFresh : ClusterEnv :=
  baseEnv (fun n => if n = 0 then .ok .noInstallation else .ok .installed)

/-- Environment that always reports Installed. -/
def envInstalled : ClusterEnv := baseEnv (fun _ => .ok .installed)

/-- Environment that always reports InProgress. -/
def envInProgress : ClusterEnv := baseEnv (fun _ => .ok .inProgress)

/-- Environment whose state queries fail, with the error message of the
third TestInstallKyma scenario. -/
def envQueryError : ClusterEnv := baseEnv (fun _ => .error "installation is hiding from us")

/-- An admin-user secret with different content, for the idempotence
claim's observation that rerun content may differ. -/
def testSecretDataChanged : String → Option String :=
  fun f => if f = "email" then some "admin2@fake.com" else if f = "password" then some "rotated-password" else none

/-- Installed environment whose secret content differs from
`envInstalled`. -/
def envInstalledChanged : ClusterEnv :=
  ⟨fun _ => .ok .installed, .ok (), fun _ _ _ _ => .ok (),
   fun ns n => if ns = "kyma-system" ∧ n = "admin-user" then some testSecretDataChanged else none,
   fun ns n => if ns = "kyma-system" ∧ n = "console-web" then some ["fake-console-url"] else none⟩

/-- The poll loop confirms completion when the queries from index `i`
report InProgress up to some index `k` at which Installed is observed,
provided the fuel covers the distance. -/
theorem poll_reaches_installed (env : ClusterEnv) (k : Nat)
    (hend : env.checkState k = .ok .installed) :
    ∀ fuel i, i ≤ k → k - i < fuel →
      (∀ j, i ≤ j → j < k → env.checkState j = .ok .inProgress) →
      pollUntilInstalled env i fuel = .ok () := by
  intro fuel
  induction fuel with
  | zero => intro i h1 h2 _; omega
  | succ fuel ih =>
    intro i hik hfl hmid
    by_cases hik2 : i = k
    · subst hik2
      simp [pollUntilInstalled, hend]
    · have hi : env.checkState i = .ok .inProgress := hmid i le_rfl (by omega)
      simp only [pollUntilInstalled, hi]
      exact ih (i + 1) (by omega) (by omega) (fun j hj1 hj2 => hmid j (by omega) hj2)

/-- C1: given an observed installation state of NoInstallation or
empty/unset and NoWait false, InstallKyma calls the trigger operation
exactly once, waits once for the installer pod to reach the running
phase, polls the state until Installed, and returns a populated
InstallationResult with no error. -/
theorem C1_fresh_state_triggers_once_waits_polls_returns_result
    (o : Options) (env : ClusterEnv) (fuel k : Nat)
    (h0 : env.checkState 0 = .ok .noInstallation ∨ env.checkState 0 = .ok .unset)
    (hnw : o.NoWait = false)
    (htr : env.triggerInstallation = .ok ())
    (hpod : env.waitPodStatus "kyma-installer" "name" "kyma-installer" "Running" = .ok ())
    (hk1 : 1 ≤ k) (hkf : k ≤ fuel)
    (hmid : ∀ j, 1 ≤ j → j < k → env.checkState j = .ok .inProgress)
    (hend : env.checkState k = .ok .installed)
    (r : InstallationResult) (hass : assembleResult env = .ok r) :
    InstallKyma o env fuel = (.ok (some r), ⟨1, 1, 1⟩) := by
  have hpoll : pollUntilInstalled env 1 fuel = .ok () :=
    poll_reaches_installed env k hend fuel 1 hk1 (by omega) hmid
  rcases h0 with h0 | h0 <;>
    simp [InstallKyma, h0, htr, hnw, waitAndFinish, hpod, hpoll, hass]

/-- Witness for C1 at the fakes of TestInstallKyma's final scenario. -/
theorem C1_witness :
    InstallKyma testOptions envFresh 1 =
      (.ok (some ⟨"fake-console-url", "admin@fake.com", "1234-super-secure"⟩), ⟨1, 1, 1⟩) :=
  C1_fresh_state_triggers_once_waits_polls_returns_result testOptions envFresh 1 1
    (Or.inl rfl) rfl rfl rfl le_rfl le_rfl
    (fun _ hj1 hj2 => absurd (lt_of_le_of_lt hj1 hj2) (lt_irrefl 1))
    rfl ⟨"fake-console-url", "admin@fake.com", "1234-super-secure"⟩ rfl

/-- C3: given an observed state of Installed, InstallKyma performs no
trigger call and returns a populated result whose entry URL is the first
hostname of the console-web networking resource in namespace kyma-system
and whose credentials are the email and password fields of the
admin-user secret in namespace kyma-system. -/
theorem C3_installed_state_assembles_result_without_trigger
    (o : Options) (env : ClusterEnv) (fuel : Nat)
    (h0 : env.checkState 0 = .ok .installed)
    (h : String) (tl : List String) (d : String → Option String) (em pw : String)
    (hvs : env.getVirtualServiceHosts "kyma-system" "console-web" = some (h :: tl))
    (hsec : env.getSecretData "kyma-system" "admin-user" = some d)
    (hem : d "email" = some em) (hpw : d "password" = some pw) :
    InstallKyma o env fuel = (.ok (some ⟨h, em, pw⟩), ⟨0, 0, 1⟩) := by
  simp [InstallKyma, h0, assembleResult, hvs, hsec, hem, hpw]

/-- Witness for C3 at the fakes of TestInstallKyma's first scenario. -/
theorem C3_witness :
    InstallKyma testOptions envInstalled 5 =
      (.ok (some ⟨"fake-console-url", "admin@fake.com", "1234-super-secure"⟩), ⟨0, 0, 1⟩) :=
  C3_installed_state_assembles_result_without_trigger testOptions envInstalled 5 rfl
    "fake-console-url" [] testSecretData "admin@fake.com" "1234-super-secure" rfl rfl rfl rfl

/-- C4: given an observed state of InProgress and NoWait true,
InstallKyma returns the empty result with no error, performs no trigger
call, and never enters the pod wait or the poll loop. -/
theorem C4_in_progress_no_wait_returns_empty
    (o : Options) (env : ClusterEnv) (fuel : Nat)
    (h0 : env.checkState 0 = .ok .inProgress) (hnw : o.NoWait = true) :
    InstallKyma o env fuel = (.ok none, ⟨0, 0, 0⟩) := by
  simp [InstallKyma, h0, hnw]

/-- Witness for C4 at the fakes of TestInstallKyma's second scenario. -/
theorem C4_witness :
    InstallKyma { testOptions with NoWait := true } envInProgress 5 = (.ok none, ⟨0, 0, 0⟩) :=
  C4_in_progress_no_wait_returns_empty { testOptions with NoWait := true } envInProgress 5 rfl rfl

/-- C5: when the initial installation-state query fails, InstallKyma
propagates the error immediately as QueryFailed, with no trigger call,
no pod wait and no result assembly. -/
theorem C5_query_error_propagates_immediately
    (o : Options) (env : ClusterEnv) (fuel : Nat) (e : String)
    (h0 : env.checkState 0 = .error e) :
    InstallKyma o env fuel = (.error (.QueryFailed e), ⟨0, 0, 0⟩) := by
  simp [InstallKyma, h0]

/-- Witness for C5 at the fakes of TestInstallKyma's third scenario. -/
theorem C5_witness :
    InstallKyma testOptions envQueryError 5 =
      (.error (.QueryFailed "installation is hiding from us"), ⟨0, 0, 0⟩) :=
  C5_query_error_propagates_immediately testOptions envQueryError 5
    "installation is hiding from us" rfl

/-- C9: a repeated run while the observed state is Installed is
side-effect-free — no trigger call and no pod wait, only a result read —
and both the first and the repeated run return a populated result; the
contents may differ when the underlying secrets changed between runs. -/
theorem C9_installed_rerun_side_effect_free_same_shape
    (o o₂ : Options) (env env₂ : ClusterEnv) (fuel fuel₂ : Nat)
    (h0 : env.checkState 0 = .ok .installed) (h02 : env₂.checkState 0 = .ok .installed)
    (r r₂ : InstallationResult)
    (hass : assembleResult env = .ok r) (hass2 : assembleResult env₂ = .ok r₂) :
    InstallKyma o env fuel = (.ok (some r), ⟨0, 0, 1⟩) ∧
    InstallKyma o₂ env₂ fuel₂ = (.ok (some r₂), ⟨0, 0, 1⟩) := by
  constructor <;> simp [InstallKyma, h0, h02, hass, hass2]

/-- Witness for C9: two Installed runs, the second against rotated
secret contents, both populated and trigger-free. -/
theorem C9_witness :
    InstallKyma testOptions envInstalled 5 =
      (.ok (some ⟨"fake-console-url", "admin@fake.com", "1234-super-secure"⟩), ⟨0, 0, 1⟩) ∧
    InstallKyma testOptions envInstalledChanged 5 =
      (.ok (some ⟨"fake-console-url", "admin2@fake.com", "rotated-password"⟩), ⟨0, 0, 1⟩) :=
  C9_installed_rerun_side_effect_free_same_shape testOptions testOptions
    envInstalled envInstalledChanged 5 5 rfl rfl
    ⟨"fake-console-url", "admin@fake.com", "1234-super-secure"⟩
    ⟨"fake-console-url", "admin2@fake.com", "rotated-password"⟩ rfl rfl

/-- The configuration of TestValidateConfigurations' first scenario:
only Domain of the TLS triple is set. -/
def domainOnlyOptions : Options :=
  ⟨false, false, 0, "irrelevant", "", "", "", [], "", false, "1.11.0", "", ""⟩

/-- The configuration of TestValidateConfigurations' remote local-source
scenario: full TLS triple, Source local, IsLocal false, no custom
image. -/
def localRemoteOptions : Options :=
  ⟨false, false, 0, "irrelevant", "fake-cert", "fake-key", "", [], "", false, "local", "", "/tmp/fake-path-for-cli-test"⟩

/-- C2 counterexample: with only Domain set the validator does fail with
PartialTLSConfig, but its message is the one asserted by
TestValidateConfigurations, not the message the claim states. -/
theorem C2_counterexample :
    validateConfigurations domainOnlyOptions (fun _ => false) = .error .PartialTLSConfig ∧
    ConfigError.message .PartialTLSConfig ≠
      "You specified one of the domain, TLS key, or TLS cert options without specifying the others; they must be specified together." := by
  constructor
  · rfl
  · decide

/-- C2 amended: when exactly one or two of Domain, TLSCert, TLSKey are
non-empty the validator fails with PartialTLSConfig, whose message is
the string asserted in TestValidateConfigurations; when zero or all
three are non-empty that rule produces no error. -/
theorem C2_amended_partial_tls_exact_message
    (o : Options) (fs : String → Bool) :
    ((tlsTriple o = 1 ∨ tlsTriple o = 2) →
      validateConfigurations o fs = .error .PartialTLSConfig ∧
      ConfigError.message .PartialTLSConfig =
        "You specified one of the --domain, --tlsKey, or --tlsCert without specifying the others. They must be specified together") ∧
    ((tlsTriple o = 0 ∨ tlsTriple o = 3) →
      validateConfigurations o fs ≠ .error .PartialTLSConfig) := by
  constructor
  · intro h
    have hcond : 1 ≤ tlsTriple o ∧ tlsTriple o < 3 := by omega
    exact ⟨by simp [validateConfigurations, hcond], rfl⟩
  · intro h
    have hcond : ¬(1 ≤ tlsTriple o ∧ tlsTriple o < 3) := by omega
    unfold validateConfigurations
    rw [if_neg hcond]
    split_ifs <;> simp

/-- Witness for C2 at the first TestValidateConfigurations scenario. -/
theorem C2_witness :
    validateConfigurations domainOnlyOptions (fun _ => false) = .error .PartialTLSConfig ∧
    ConfigError.message .PartialTLSConfig =
      "You specified one of the --domain, --tlsKey, or --tlsCert without specifying the others. They must be specified together" :=
  (C2_amended_partial_tls_exact_message domainOnlyOptions (fun _ => false)).1 (Or.inl (by decide))

/-- C6 counterexample: Source "1.11.0" is not local, not "latest", not
"latest-published", matches neither the commit-id nor the
image-reference pattern, yet the validator accepts it (as
TestValidateConfigurations requires), so it does not fail with
UnknownSource as the claim states for such a value. -/
theorem C6_counterexample :
    testOptions.Source ≠ "local" ∧
    (testOptions.Source == "latest") = false ∧
    (testOptions.Source == "latest-published") = false ∧
    isCommitID testOptions.Source = false ∧
    isImageReference testOptions.Source = false ∧
    validateConfigurations testOptions (fun _ => false) = .ok () := by
  exact ⟨by decide, by decide, by decide, by decide, by decide, rfl⟩

/-- C6 amended: for a non-local Source with a consistent TLS triple the
validator succeeds exactly when the Source is "latest",
"latest-published", a commit id, an image reference, or a release
version such as "1.11.0" (the variant the tests pin beyond the spec's
list), and fails with UnknownSource otherwise. -/
theorem C6_amended_source_classification
    (o : Options) (fs : String → Bool)
    (hsrc : o.Source ≠ "local")
    (htls : tlsTriple o = 0 ∨ tlsTriple o = 3) :
    (knownSource o.Source = true → validateConfigurations o fs = .ok ()) ∧
    (knownSource o.Source = false → validateConfigurations o fs = .error .UnknownSource) := by
  have hcond : ¬(1 ≤ tlsTriple o ∧ tlsTriple o < 3) := by omega
  constructor <;> intro h <;>
    · unfold validateConfigurations
      rw [if_neg hcond, if_neg hsrc]
      simp [h]

/-- Witness for C6: the accepted Source "latest" and the rejected Source
"fake-source" of TestValidateConfigurations. -/
theorem C6_witness :
    validateConfigurations { testOptions with Source := "latest" } (fun _ => false) = .ok () ∧
    validateConfigurations { testOptions with Source := "fake-source" } (fun _ => false) = .error .UnknownSource :=
  ⟨(C6_amended_source_classification { testOptions with Source := "latest" } (fun _ => false)
      (by decide) (Or.inr (by decide))).1 (by decide),
   (C6_amended_source_classification { testOptions with Source := "fake-source" } (fun _ => false)
      (by decide) (Or.inr (by decide))).2 (by decide)⟩

/-- C7 counterexample: for Source local, IsLocal false and empty
CustomImage (with the local source tree present) the validator does fail
with MissingCustomImage, but its message is the one asserted by
TestValidateConfigurations, not the message the claim states. -/
theorem C7_counterexample :
    validateConfigurations localRemoteOptions (fun _ => true) = .error .MissingCustomImage ∧
    ConfigError.message .MissingCustomImage ≠
      "A custom image must be specified to install from local sources onto a remote cluster." := by
  constructor
  · rfl
  · decide

/-- C7 amended: with Source local, a consistent TLS triple and the local
source tree present, the validator fails with MissingCustomImage — whose
message is the string asserted in TestValidateConfigurations — exactly
when IsLocal is false and CustomImage is empty; any non-empty
CustomImage makes it pass, and the rule does not apply when IsLocal is
true. -/
theorem C7_amended_missing_custom_image
    (o : Options) (fs : String → Bool)
    (hsrc : o.Source = "local")
    (htls : tlsTriple o = 0 ∨ tlsTriple o = 3)
    (hdir : fs (o.LocalSrcPath ++ "/installation/resources") = true) :
    (o.IsLocal = false → o.CustomImage = "" →
      validateConfigurations o fs = .error .MissingCustomImage ∧
      ConfigError.message .MissingCustomImage =
        "You must specify --custom-image to install Kyma from local sources to a remote cluster.") ∧
    (o.CustomImage ≠ "" → validateConfigurations o fs = .ok ()) ∧
    (o.IsLocal = true → validateConfigurations o fs = .ok ()) := by
  have hcond : ¬(1 ≤ tlsTriple o ∧ tlsTriple o < 3) := by omega
  refine ⟨fun h1 h2 => ⟨?_, rfl⟩, fun h2 => ?_, fun h1 => ?_⟩
  · unfold validateConfigurations
    rw [if_neg hcond, if_pos hsrc]
    simp [hdir, h1, h2]
  · unfold validateConfigurations
    rw [if_neg hcond, if_pos hsrc]
    simp [hdir, h2]
  · unfold validateConfigurations
    rw [if_neg hcond, if_pos hsrc]
    simp [hdir, h1]

/-- Witness for C7 at the local-source scenarios of
TestValidateConfigurations. -/
theorem C7_witness :
    (validateConfigurations localRemoteOptions (fun _ => true) = .error .MissingCustomImage ∧
     ConfigError.message .MissingCustomImage =
       "You must specify --custom-image to install Kyma from local sources to a remote cluster.") ∧
    validateConfigurations { localRemoteOptions with CustomImage := "test-registry/test-image:1.0.0" } (fun _ => true) = .ok () ∧
    validateConfigurations { localRemoteOptions with IsLocal := true } (fun _ => true) = .ok () :=
  ⟨(C7_amended_missing_custom_image localRemoteOptions (fun _ => true)
      rfl (Or.inr (by decide)) rfl).1 rfl rfl,
   (C7_amended_missing_custom_image { localRemoteOptions with CustomImage := "test-registry/test-image:1.0.0" } (fun _ => true)
      rfl (Or.inr (by decide)) rfl).2.1 (by decide),
   (C7_amended_missing_custom_image { localRemoteOptions with IsLocal := true } (fun _ => true)
      rfl (Or.inr (by decide)) rfl).2.2 rfl⟩

/-- C8: with Source local, the validator succeeds only if the directory
LocalSrcPath/installation/resources exists, and — provided the earlier
TLS rule passes, rules being applied in order with the first failure
winning — its absence makes the validator fail with
MissingLocalSources. -/
theorem C8_local_requires_resources_dir
    (o : Options) (fs : String → Bool) (hsrc : o.Source = "local") :
    (validateConfigurations o fs = .ok () → fs (o.LocalSrcPath ++ "/installation/resources") = true) ∧
    ((tlsTriple o = 0 ∨ tlsTriple o = 3) → fs (o.LocalSrcPath ++ "/installation/resources") = false →
      validateConfigurations o fs = .error .MissingLocalSources) := by
  constructor
  · intro hok
    cases hb : fs (o.LocalSrcPath ++ "/installation/resources") with
    | true => rfl
    | false =>
      exfalso
      unfold validateConfigurations at hok
      split_ifs at hok
  · intro htls hfs
    have hcond : ¬(1 ≤ tlsTriple o ∧ tlsTriple o < 3) := by omega
    unfold validateConfigurations
    rw [if_neg hcond, if_pos hsrc]
    simp [hfs]

/-- Witness for C8: the remote local-source configuration against a
filesystem with no installation/resources directory. -/
theorem C8_witness :
    validateConfigurations localRemoteOptions (fun _ => false) = .error .MissingLocalSources :=
  (C8_local_requires_resources_dir localRemoteOptions (fun _ => false) rfl).2 (Or.inr (by decide)) rfl

/-- C10: the validator accepts the dotted release-version Source
"1.11.0" when the TLS triple is fully specified, although that string is
none of the five source variants the spec lists — not "latest", not
"latest-published", not a commit id, not an image reference and not
"local". -/
theorem C10_release_version_source_accepted
    (o : Options) (fs : String → Bool)
    (hd : o.Domain ≠ "") (hc : o.TLSCert ≠ "") (hk : o.TLSKey ≠ "")
    (hs : o.Source = "1.11.0") :
    validateConfigurations o fs = .ok () ∧
    (o.Source == "latest") = false ∧
    (o.Source == "latest-published") = false ∧
    isCommitID o.Source = false ∧
    isImageReference o.Source = false ∧
    o.Source ≠ "local" := by
  have h3 : tlsTriple o = 3 := by simp [tlsTriple, hd, hc, hk]
  have hcond : ¬(1 ≤ tlsTriple o ∧ tlsTriple o < 3) := by omega
  refine ⟨?_, by rw [hs]; decide, by rw [hs]; decide, by rw [hs]; decide,
    by rw [hs]; decide, by rw [hs]; decide⟩
  unfold validateConfigurations
  rw [if_neg hcond, hs]
  rw [if_neg (by decide : ¬("1.11.0" = "local"))]
  rw [if_pos (by decide : knownSource "1.11.0" = true)]

/-- Witness for C10 at the Options literal of TestInstallKyma. -/
theorem C10_witness :
    validateConfigurations testOptions (fun _ => false) = .ok () ∧
    (testOptions.Source == "latest") = false ∧
    (testOptions.Source == "latest-published") = false ∧
    isCommitID testOptions.Source = false ∧
    isImageReference testOptions.Source = false ∧
    testOptions.Source ≠ "local" :=
  C10_release_version_source_accepted testOptions (fun _ => false)
    (by decide) (by decide) (by decide) rfl
